import Mathlib

/-!
Shallow embedding of `testutil/cockroachdb-transformer/main.go`.

The program reads a YAML configuration document from the `API_CONFIG`
environment variable, copies its standard input through to standard
output, prints a blank line followed by a `---` document separator,
resolves the `spec.replicas` field (explicit value, else the `REPLICAS`
environment variable, else `1`), and finally renders a fixed
multi-document template against the resolved configuration.

The embedding models the process as a pure function from
(configuration document, `REPLICAS` environment string, stdin content)
to the produced stdout content together with either the resolved
configuration or the fatal error that terminated the process.
-/

namespace Cockroach

/-- `Metadata` struct of the Go program: the Deployment metadata.
`name` is a plain Go `string`, so an absent `metadata.name` decodes to `""`. -/
structure Metadata where
  name : String
deriving DecidableEq

/-- `Spec` struct of the Go program. `Replicas *int` is a pointer, so an
absent `spec.replicas` decodes to `none` while an explicit value (including
`0`) decodes to `some`. -/
structure Spec where
  replicas : Option Int
deriving DecidableEq

/-- `API` struct of the Go program: the decoded configuration document. -/
structure API where
  metadata : Metadata
  spec : Spec
deriving DecidableEq

/-- Abstraction of the byte stream held in the `API_CONFIG` environment
variable, classified by how `yaml.Decoder.Decode` reacts to it:
a zero-length stream (`Decode` returns `io.EOF`), a syntactically
malformed stream (`Decode` returns a parse error), or a well-formed
mapping carrying the two recognized fields plus any extra field keys. -/
inductive YamlDoc where
  | empty : YamlDoc
  | invalid : YamlDoc
  | mapping (name : Option String) (replicas : Option Int) (extra : List String) : YamlDoc
deriving DecidableEq

/-- Errors of the modelled `yaml.Decoder.Decode` call. -/
inductive DecodeError where
  | eof : DecodeError
  | malformed : DecodeError
  | unknownField : DecodeError
deriving DecidableEq

/-- Model of `yaml.Decoder.Decode` into `&API{}` after
`d.KnownFields(knownFields)`.  A zero-length stream yields `io.EOF`; a
malformed stream yields a parse error; a well-formed mapping fails on
extra keys only when strict field checking is enabled, and otherwise
extracts `metadata.name` (zero value `""` when absent) and
`spec.replicas` (nil pointer when absent), ignoring every other field.
The program itself always calls this with `knownFields = false`
(`d.KnownFields(false)` in `main`). -/
def decode (knownFields : Bool) : YamlDoc → Except DecodeError API
  | .empty => .error .eof
  | .invalid => .error .malformed
  | .mapping name replicas extra =>
      if knownFields = true ∧ extra ≠ [] then .error .unknownField
      else .ok { metadata := { name := name.getD "" }, spec := { replicas := replicas } }

/-- Decimal digits folded to a `Nat`, as `strconv.Atoi` accumulates them. -/
def digitsToNat (ds : List Char) : Nat :=
  ds.foldl (fun a c => a * 10 + (c.toNat - 48)) 0

/-- A non-empty all-digit run parses; anything else is rejected. -/
def parseDigits (ds : List Char) : Option Nat :=
  if ds ≠ [] ∧ ds.all (fun c => c.isDigit) then some (digitsToNat ds) else none

/-- Model of Go `strconv.Atoi`: an optional single `+` or `-` sign followed
by at least one decimal digit, no surrounding whitespace, and the result
must fit in a 64-bit signed integer (`strconv.ErrRange` otherwise). -/
def atoi (s : String) : Option Int :=
  (match s.data with
   | '+' :: ds => (parseDigits ds).map (fun n => (n : Int))
   | '-' :: ds => (parseDigits ds).map (fun n => -(n : Int))
   | ds => (parseDigits ds).map (fun n => (n : Int))).bind
    (fun n => if -(2 ^ 63) ≤ n ∧ n < 2 ^ 63 then some n else none)

/-- The replica-defaulting block of `main` (the two `if` statements after
`r := os.Getenv("REPLICAS")`): when the environment string is non-empty
and the document did not set `spec.replicas`, parse the environment
string with `strconv.Atoi`, failing fatally when it does not parse;
otherwise keep the explicit value, or fall back to `1` when the field is
still unset.  The `.error` payload is the unparsable string. -/
def resolveReplicas (r : String) (cur : Option Int) : Except String Int :=
  if r ≠ "" ∧ cur = none then
    match atoi r with
    | none => .error r
    | some n => .ok n
  else
    match cur with
    | some n => .ok n
    | none => .ok 1

/-- Fatal error cases of a run of the program. -/
inductive RunError where
  | parseError (e : DecodeError) : RunError
  | invalidDefault (s : String) : RunError
deriving DecidableEq

deriving instance DecidableEq for Except

/-- Observable outcome of a run: the bytes written to stdout before the
process finished, and either the resolved configuration (success) or the
fatal error on which the process exited. -/
structure RunResult where
  stdout : String
  result : Except RunError API
deriving DecidableEq

/-- Literal text of the Go template variable `t` between substitution sites (0). -/
def t0 : String :=
  "\napiVersion: v1\nkind: Service\nmetadata:\n  # This service is meant to be used by clients of the database. It exposes a ClusterIP that will\n  # automatically load balance connections to the different database pods.\n  name: "

/-- Literal text of the Go template variable `t` between substitution sites (1). -/
def t1 : String :=
  "-public\n  labels:\n    app: "

/-- Literal text of the Go template variable `t` between substitution sites (2). -/
def t2 : String :=
  "-cockroachdb\n  annotations:\n    kpt.dev/kio/path: null\n    kpt.dev/kio/index: null\nspec:\n  ports:\n  # The main port, served by gRPC, serves Postgres-flavor SQL, internode\n  # traffic and the cli.\n  - port: 26257\n    targetPort: 26257\n    name: grpc\n  # The secondary port serves the UI as well as health and debug endpoints.\n  - port: 8080\n    targetPort: 8080\n    name: http\n  selector:\n    app: "

/-- Literal text of the Go template variable `t` between substitution sites (3). -/
def t3 : String :=
  "-cockroachdb\n---\napiVersion: v1\nkind: Service\nmetadata:\n  # This service only exists to create DNS entries for each pod in the stateful\n  # set such that they can resolve each other\x27s IP addresses. It does not\n  # create a load-balanced ClusterIP and should not be used directly by clients\n  # in most circumstances.\n  name: "

/-- Literal text of the Go template variable `t` between substitution sites (4). -/
def t4 : String :=
  "\n  labels:\n    app: "

/-- Literal text of the Go template variable `t` between substitution sites (5). -/
def t5 : String :=
  "-cockroachdb\n  annotations:\n    # This is needed to make the peer-finder work properly and to help avoid\n    # edge cases where instance 0 comes up after losing its data and needs to\n    # decide whether it should create a new cluster or try to join an existing\n    # one. If it creates a new cluster when it should have joined an existing\n    # one, we\x27d end up with two separate clusters listening at the same service\n    # endpoint, which would be very bad.\n    service.alpha.kubernetes.io/tolerate-unready-endpoints: \"true\"\n    # Enable automatic monitoring of all instances when Prometheus is running in the cluster.\n    prometheus.io/scrape: \"true\"\n    prometheus.io/path: \"_status/vars\"\n    prometheus.io/port: \"8080\"\n    kpt.dev/kio/path: null\n    kpt.dev/kio/index: null\nspec:\n  ports:\n  - port: 26257\n    targetPort: 26257\n    name: grpc\n  - port: 8080\n    targetPort: 8080\n    name: http\n  clusterIP: None\n  selector:\n    app: "

/-- Literal text of the Go template variable `t` between substitution sites (6). -/
def t6 : String :=
  "-cockroachdb\n---\napiVersion: policy/v1beta1\nkind: PodDisruptionBudget\nmetadata:\n  name: cockroachdb-budget\n  labels:\n    app: "

/-- Literal text of the Go template variable `t` between substitution sites (7). -/
def t7 : String :=
  "-cockroachdb\n  annotations:\n    kpt.dev/kio/path: null\n    kpt.dev/kio/index: null\nspec:\n  selector:\n    matchLabels:\n      app: "

/-- Literal text of the Go template variable `t` between substitution sites (8). -/
def t8 : String :=
  "-cockroachdb\n  minAvailable: 67%\n---\napiVersion: apps/v1  #  for k8s versions before 1.9.0 use apps/v1beta2  and before 1.8.0 use extensions/v1beta1\nkind: StatefulSet\nmetadata:\n  name: "

/-- Literal text of the Go template variable `t` between substitution sites (9). -/
def t9 : String :=
  "\n  labels:\n    app: "

/-- Literal text of the Go template variable `t` between substitution sites (10). -/
def t10 : String :=
  "-cockroachdb\n  annotations:\n    kpt.dev/kio/path: null\n    kpt.dev/kio/index: null\n    kpt.dev/duck/set-image: disabled\n    kpt.dev/duck/get-image: disabled\n    kpt.dev/duck/set-replicas: disabled\n    kpt.dev/duck/get-replicas: disabled\nspec:\n  serviceName: "

/-- Literal text of the Go template variable `t` between substitution sites (11). -/
def t11 : String :=
  "\n  replicas: "

/-- Literal text of the Go template variable `t` between substitution sites (12). -/
def t12 : String :=
  "\n  selector:\n    matchLabels:\n      app: "

/-- Literal text of the Go template variable `t` between substitution sites (13). -/
def t13 : String :=
  "-cockroachdb\n  template:\n    metadata:\n      labels:\n        app: "

/-- Literal text of the Go template variable `t` between substitution sites (14). -/
def t14 : String :=
  "-cockroachdb\n    spec:\n      # Init containers are run only once in the lifetime of a pod, before\n      # it\x27s started up for the first time. It has to exit successfully\n      # before the pod\x27s main containers are allowed to start.\n      # This particular init container does a DNS lookup for other pods in\n      # the set to help determine whether or not a cluster already exists.\n      # If any other pods exist, it creates a file in the cockroach-data\n      # directory to pass that information along to the primary container that\n      # has to decide what command-line flags to use when starting CockroachDB.\n      # This only matters when a pod\x27s persistent volume is empty - if it has\n      # data from a previous execution, that data will always be used.\n      #\n      # If your Kubernetes cluster uses a custom DNS domain, you will have\n      # to add an additional arg to this pod: \"-domain=<your-custom-domain>\"\n      initContainers:\n      - name: bootstrap\n        image: cockroachdb/cockroach-k8s-init:0.1\n        imagePullPolicy: IfNotPresent\n        args:\n        - \"-on-start=/on-start.sh\"\n        - \"-service=cockroachdb\"\n        env:\n        - name: POD_NAMESPACE\n          valueFrom:\n            fieldRef:\n              fieldPath: metadata.namespace\n        volumeMounts:\n        - name: datadir\n          mountPath: \"/cockroach/cockroach-data\"\n      affinity:\n        podAntiAffinity:\n          preferredDuringSchedulingIgnoredDuringExecution:\n          - weight: 100\n            podAffinityTerm:\n              labelSelector:\n                matchExpressions:\n                - key: app\n                  operator: In\n                  values:\n                  - cockroachdb\n              topologyKey: kubernetes.io/hostname\n      containers:\n      - name: cockroachdb\n        image: cockroachdb/cockroach:v1.1.0\n        imagePullPolicy: IfNotPresent\n        ports:\n        - containerPort: 26257\n          name: grpc\n        - containerPort: 8080\n          name: http\n        volumeMounts:\n        - name: datadir\n          mountPath: /cockroach/cockroach-data\n        command:\n          - \"/bin/bash\"\n          - \"-ecx\"\n          - |\n            # The use of qualified \x60hostname -f\x60 is crucial:\n            # Other nodes aren\x27t able to look up the unqualified hostname.\n            CRARGS=(\"start\" \"--logtostderr\" \"--insecure\" \"--host\" \"$(hostname -f)\" \"--http-host\" \"0.0.0.0\")\n            # We only want to initialize a new cluster (by omitting the join flag)\n            # if we\x27re sure that we\x27re the first node (i.e. index 0) and that\n            # there aren\x27t any other nodes running as part of the cluster that\n            # this is supposed to be a part of (which indicates that a cluster\n            # already exists and we should make sure not to create a new one).\n            # It\x27s fine to run without --join on a restart if there aren\x27t any\n            # other nodes.\n            if [ ! \"$(hostname)\" == \"cockroachdb-0\" ] || \\\n               [ -e \"/cockroach/cockroach-data/cluster_exists_marker\" ]\n            then\n              # We don\x27t join cockroachdb in order to avoid a node attempting\n              # to join itself, which currently doesn\x27t work\n              # (https://github.com/cockroachdb/cockroach/issues/9625).\n              CRARGS+=(\"--join\" \"cockroachdb-public\")\n            fi\n            exec /cockroach/cockroach $\x7bCRARGS[*]\x7d\n      # No pre-stop hook is required, a SIGTERM plus some time is all that\x27s\n      # needed for graceful shutdown of a node.\n      terminationGracePeriodSeconds: 60\n      volumes:\n      - name: datadir\n        persistentVolumeClaim:\n          claimName: datadir\n  volumeClaimTemplates:\n  - metadata:\n      name: datadir\n    spec:\n      accessModes:\n        - \"ReadWriteOnce\"\n      resources:\n        requests:\n          storage: 1Gi\n"

/-- Rendering of a field of type `*int` by `text/template`: the pointer is
dereferenced and the integer printed in decimal; a nil pointer prints as
`<nil>`.  (After resolution the pointer is never nil.) -/
def renderReplicas : Option Int → String
  | none => "<nil>"
  | some n => toString n

/-- `t.Execute` applied to the resolved configuration: the fixed template
text (Go variable `t`) with every occurrence of the `.Metadata.Name`
action replaced by the name and the `.Spec.Replicas` action replaced by
the rendered replica count. -/
def renderTemplate (api : API) : String :=
  t0
    ++ api.metadata.name
    ++ t1
    ++ api.metadata.name
    ++ t2
    ++ api.metadata.name
    ++ t3
    ++ api.metadata.name
    ++ t4
    ++ api.metadata.name
    ++ t5
    ++ api.metadata.name
    ++ t6
    ++ api.metadata.name
    ++ t7
    ++ api.metadata.name
    ++ t8
    ++ api.metadata.name
    ++ t9
    ++ api.metadata.name
    ++ t10
    ++ api.metadata.name
    ++ t11
    ++ renderReplicas api.spec.replicas
    ++ t12
    ++ api.metadata.name
    ++ t13
    ++ api.metadata.name
    ++ t14

/-- The `main` function of the program as a pure function of its three
external inputs: the `API_CONFIG` document, the `REPLICAS` environment
string, and the standard-input content.  It follows the source order
exactly: decode the document (fatal, nothing written yet, on failure);
copy stdin to stdout and `fmt.Println("\n---")`; resolve the replicas
default (fatal after the copy on an unparsable non-empty `REPLICAS`);
finally render the template against the resolved configuration and
append it to stdout. -/
def main (apiConfig : YamlDoc) (replicasEnv : String) (stdin : String) : RunResult :=
  match decode false apiConfig with
  | .error e => { stdout := "", result := .error (.parseError e) }
  | .ok api =>
    match resolveReplicas replicasEnv api.spec.replicas with
    | .error s => { stdout := stdin ++ "\n---\n", result := .error (.invalidDefault s) }
    | .ok n =>
        { stdout := (stdin ++ "\n---\n")
            ++ renderTemplate { api with spec := { replicas := some n } },
          result := .ok { api with spec := { replicas := some n } } }

/-! ## Verified properties -/

/-- C4: for every syntactically invalid configuration document, resolution
fails with a parse error and the operation aborts before any output is
produced: stdout stays empty. -/
theorem parse_error_no_output (env stdin : String) :
    (main .invalid env stdin).stdout = ""
    ∧ (main .invalid env stdin).result = .error (.parseError .malformed) :=
  ⟨rfl, rfl⟩

/-- C10: the zero-length configuration document fails to decode (the YAML
decoder reports end of stream) and the invocation aborts with empty
output, even though a document with both recognized fields absent
decodes successfully (each field is individually optional). -/
theorem empty_doc_rejected (env stdin : String) :
    (main .empty env stdin).stdout = ""
    ∧ (main .empty env stdin).result = .error (.parseError .eof)
    ∧ decode false (.mapping none none [])
        = .ok { metadata := { name := "" }, spec := { replicas := none } } :=
  ⟨rfl, rfl, rfl⟩

/-- C8: extra fields beyond `metadata.name` and `spec.replicas` never make
decoding fail (the program disables strict field checking), only those
two fields are extracted, and the whole run is unchanged by the presence
of extra fields. -/
theorem unknown_fields_ignored (nm : Option String) (rep : Option Int)
    (extra : List String) (env stdin : String) :
    decode false (.mapping nm rep extra)
      = .ok { metadata := { name := nm.getD "" }, spec := { replicas := rep } }
    ∧ main (.mapping nm rep extra) env stdin = main (.mapping nm rep []) env stdin := by
  constructor
  · simp [decode]
  · simp [main, decode]

/-- Shared helper: on every successful run the produced stdout is the
upstream content, the separator, and the template rendering of the
resolved configuration, in that order. -/
theorem stdout_of_ok (cfg : YamlDoc) (env stdin : String) (api : API)
    (h : (main cfg env stdin).result = .ok api) :
    (main cfg env stdin).stdout = stdin ++ "\n---\n" ++ renderTemplate api := by
  cases cfg with
  | empty => simp [main, decode] at h
  | invalid => simp [main, decode] at h
  | mapping nm rep extra =>
    simp only [main, decode] at h ⊢
    rw [if_neg (by simp)] at h ⊢
    dsimp only at h ⊢
    cases hr : resolveReplicas env rep with
    | error s =>
      rw [hr] at h
      simp at h
    | ok n =>
      rw [hr] at h
      simp only [Except.ok.injEq] at h
      subst h
      simp [String.append_assoc]

/-- C9: the composition is deterministic: any two invocations that resolve
to the identical configuration and receive identical upstream content
produce byte-identical output streams, whatever raw documents and
environment defaults led to that resolved configuration. -/
theorem deterministic_output (cfg cfg2 : YamlDoc) (env env2 stdin stdin2 : String)
    (api : API)
    (h1 : (main cfg env stdin).result = .ok api)
    (h2 : (main cfg2 env2 stdin2).result = .ok api)
    (h3 : stdin = stdin2) :
    (main cfg env stdin).stdout = (main cfg2 env2 stdin2).stdout := by
  rw [stdout_of_ok cfg env stdin api h1, stdout_of_ok cfg2 env2 stdin2 api h2, h3]

/-- Witness for C9: a document with explicit `spec.replicas = 3` and a
document omitting the field but resolving it from the environment
default `"3"` reach the same resolved configuration and produce
byte-identical output. -/
theorem deterministic_output_witness :
    (main (.mapping (some "db") (some 3) []) "" "s").stdout
      = (main (.mapping (some "db") none []) "3" "s").stdout :=
  deterministic_output (.mapping (some "db") (some 3) []) (.mapping (some "db") none [])
    "" "3" "s" "s" { metadata := { name := "db" }, spec := { replicas := some 3 } }
    rfl (by decide) rfl

/-- C1: strict precedence of replica resolution: an explicit
`spec.replicas` (including zero) always wins and the environment default
is never consulted; otherwise a non-empty environment default that
parses as an integer wins; otherwise the fallback `1` is used. -/
theorem replicas_precedence (nm : Option String) (rep : Option Int)
    (extra : List String) (env stdin : String) :
    (∀ R : Int, rep = some R →
      (main (.mapping nm rep extra) env stdin).result
        = .ok { metadata := { name := nm.getD "" }, spec := { replicas := some R } })
    ∧ (rep = none → ∀ d : Int, atoi env = some d →
      (main (.mapping nm rep extra) env stdin).result
        = .ok { metadata := { name := nm.getD "" }, spec := { replicas := some d } })
    ∧ (rep = none → env = "" →
      (main (.mapping nm rep extra) env stdin).result
        = .ok { metadata := { name := nm.getD "" }, spec := { replicas := some 1 } }) := by
  refine ⟨?_, ?_, ?_⟩
  · rintro R rfl
    simp [main, decode, resolveReplicas]
  · rintro rfl d hd
    have h0 : atoi "" = none := rfl
    have hne : env ≠ "" := by
      intro he; rw [he, h0] at hd; exact Option.noConfusion hd
    simp [main, decode, resolveReplicas, hne, hd]
  · rintro rfl rfl
    simp [main, decode, resolveReplicas]

/-- Witness for C1: an explicit `spec.replicas = 0` wins over a present
environment default `"7"`, in a document that also has extra fields. -/
theorem replicas_precedence_witness :
    (main (.mapping (some "x") (some 0) ["extraField"]) "7" "u").result
      = .ok { metadata := { name := "x" }, spec := { replicas := some 0 } } :=
  (replicas_precedence (some "x") (some 0) ["extraField"] "7" "u").1 0 rfl

/-- C6: any integer value, negative and zero included, supplied either
explicitly in `spec.replicas` or through a parseable environment default,
is accepted and passed through unchanged: no bound validation beyond
being a valid integer. -/
theorem replicas_passthrough (nm : Option String) (extra : List String)
    (env stdin : String) :
    (∀ R : Int, (main (.mapping nm (some R) extra) env stdin).result
        = .ok { metadata := { name := nm.getD "" }, spec := { replicas := some R } })
    ∧ (∀ d : Int, atoi env = some d →
      (main (.mapping nm none extra) env stdin).result
        = .ok { metadata := { name := nm.getD "" }, spec := { replicas := some d } }) := by
  constructor
  · intro R
    simp [main, decode, resolveReplicas]
  · intro d hd
    have h0 : atoi "" = none := rfl
    have hne : env ≠ "" := by
      intro he; rw [he, h0] at hd; exact Option.noConfusion hd
    simp [main, decode, resolveReplicas, hne, hd]

/-- Witness for C6: the negative environment default `"-2"` is accepted
and passed through unchanged. -/
theorem replicas_passthrough_witness :
    (main (.mapping (some "x") none []) "-2" "u").result
      = .ok { metadata := { name := "x" }, spec := { replicas := some (-2) } } :=
  (replicas_passthrough (some "x") [] "-2" "u").2 (-2) (by decide)

/-- C2: whenever resolution succeeds, the complete output is the upstream
stream byte-for-byte, then the blank line and `---` separator line, then
the template rendering of the resolved configuration — so the whole
upstream stream sits before any byte of the rendering. -/
theorem output_concatenation (cfg : YamlDoc) (env stdin : String) (api : API)
    (h : (main cfg env stdin).result = .ok api) :
    (main cfg env stdin).stdout = stdin ++ "\n---\n" ++ renderTemplate api :=
  stdout_of_ok cfg env stdin api h

/-- Witness for C2 at a concrete successful run (non-empty upstream). -/
theorem output_concatenation_witness :
    (main (.mapping (some "a") (some 2) []) "" "up\n").stdout
      = "up\n" ++ "\n---\n"
        ++ renderTemplate { metadata := { name := "a" }, spec := { replicas := some 2 } } :=
  output_concatenation (.mapping (some "a") (some 2) []) "" "up\n"
    { metadata := { name := "a" }, spec := { replicas := some 2 } } rfl

/-- C5 counterexample: a run that resolves successfully with the negative
replica count `-1`, refuting the claim that the resolved replicas value
is always non-negative. -/
theorem negative_replicas_counterexample :
    (main (.mapping (some "x") (some (-1)) []) "" "").result
      = .ok { metadata := { name := "x" }, spec := { replicas := some (-1) } }
    ∧ ¬ (0 : Int) ≤ -1 :=
  ⟨rfl, by decide⟩

/-- C5 amended: after a successful resolution the replicas field is always
populated with some integer (which may be negative or zero). -/
theorem resolved_replicas_populated (cfg : YamlDoc) (env stdin : String) (api : API)
    (h : (main cfg env stdin).result = .ok api) :
    ∃ n : Int, api.spec.replicas = some n := by
  cases cfg with
  | empty => simp [main, decode] at h
  | invalid => simp [main, decode] at h
  | mapping nm rep extra =>
    simp only [main, decode] at h
    rw [if_neg (by simp)] at h
    dsimp only at h
    cases hr : resolveReplicas env rep with
    | error s =>
      rw [hr] at h
      simp at h
    | ok n =>
      rw [hr] at h
      simp only [Except.ok.injEq] at h
      subst h
      exact ⟨n, rfl⟩

/-- Witness for the amended C5 at a concrete successful run. -/
theorem resolved_replicas_populated_witness :
    ∃ n : Int,
      (API.mk { name := "x" } { replicas := some 5 }).spec.replicas = some n :=
  resolved_replicas_populated (.mapping (some "x") (some 5) []) "" ""
    (API.mk { name := "x" } { replicas := some 5 }) rfl

/-- C3 counterexample: with no explicit `spec.replicas` and the unparsable
environment default `"abc"`, the run does fail with the invalid-default
error, but output has already been produced: stdout holds the upstream
content and the separator, so it is not empty. -/
theorem invalid_default_counterexample :
    (main (.mapping (some "mydb") none []) "abc" "A\n").result
      = .error (.invalidDefault "abc")
    ∧ (main (.mapping (some "mydb") none []) "abc" "A\n").stdout ≠ "" := by
  exact ⟨rfl, by decide⟩

/-- C3 amended: with no explicit `spec.replicas` and a non-empty
environment default that does not parse as an integer, resolution fails
with the invalid-default error and the template is not rendered — but the
upstream content and the separator have already been emitted, so stdout
equals exactly the upstream stream followed by the separator. -/
theorem invalid_default_after_passthrough (nm : Option String) (extra : List String)
    (env stdin : String) (h1 : env ≠ "") (h2 : atoi env = none) :
    (main (.mapping nm none extra) env stdin).result = .error (.invalidDefault env)
    ∧ (main (.mapping nm none extra) env stdin).stdout = stdin ++ "\n---\n" := by
  simp [main, decode, resolveReplicas, h1, h2]

/-- Witness for the amended C3 at the concrete input of the counterexample. -/
theorem invalid_default_after_passthrough_witness :
    (main (.mapping (some "mydb") none []) "abc" "A\n").result
      = .error (.invalidDefault "abc")
    ∧ (main (.mapping (some "mydb") none []) "abc" "A\n").stdout = "A\n" ++ "\n---\n" :=
  invalid_default_after_passthrough (some "mydb") [] "abc" "A\n"
    (by decide) (by decide)

set_option maxRecDepth 100000 in
/-- C7: for upstream content `"A\n"` and the resolved configuration with
name `mydb` and replicas `3`, the output is exactly `"A\n\n---\n"`
followed by the template rendering, which carries the label
`app: mydb-cockroachdb` (name plus the fixed suffix) and the replica
count rendered as `3` on the `replicas:` line. -/
theorem example_output_shape :
    (main (.mapping (some "mydb") (some 3) []) "" "A\n").stdout
      = "A\n\n---\n" ++ renderTemplate { metadata := { name := "mydb" }, spec := { replicas := some 3 } }
    ∧ (∃ pre post : String,
        renderTemplate { metadata := { name := "mydb" }, spec := { replicas := some 3 } }
          = pre ++ "app: mydb-cockroachdb" ++ post)
    ∧ renderReplicas (some 3) = "3"
    ∧ (∃ pre post : String,
        renderTemplate { metadata := { name := "mydb" }, spec := { replicas := some 3 } }
          = pre ++ "replicas: 3" ++ post) := by
  have er : renderReplicas (some 3) = "3" := by decide
  refine ⟨?_, ?_, er, ?_⟩
  · have e : ("A\n" : String) ++ "\n---\n" = "A\n\n---\n" := by decide
    show ("A\n" ++ "\n---\n") ++ renderTemplate { metadata := { name := "mydb" }, spec := { replicas := some 3 } } = _
    rw [e]
  · have e1 : t1 = "-public\n  labels:\n    " ++ "app: " := by decide
    have e2 : t2 = "-cockroachdb" ++ "\n  annotations:\n    kpt.dev/kio/path: null\n    kpt.dev/kio/index: null\nspec:\n  ports:\n  # The main port, served by gRPC, serves Postgres-flavor SQL, internode\n  # traffic and the cli.\n  - port: 26257\n    targetPort: 26257\n    name: grpc\n  # The secondary port serves the UI as well as health and debug endpoints.\n  - port: 8080\n    targetPort: 8080\n    name: http\n  selector:\n    app: " := by decide
    have e3 : ("app: mydb-cockroachdb" : String) = "app: " ++ "mydb" ++ "-cockroachdb" := by decide
    refine ⟨t0 ++ "mydb" ++ "-public\n  labels:\n    ", "\n  annotations:\n    kpt.dev/kio/path: null\n    kpt.dev/kio/index: null\nspec:\n  ports:\n  # The main port, served by gRPC, serves Postgres-flavor SQL, internode\n  # traffic and the cli.\n  - port: 26257\n    targetPort: 26257\n    name: grpc\n  # The secondary port serves the UI as well as health and debug endpoints.\n  - port: 8080\n    targetPort: 8080\n    name: http\n  selector:\n    app: " ++ "mydb" ++ t3 ++ "mydb" ++ t4 ++ "mydb" ++ t5 ++ "mydb" ++ t6 ++ "mydb" ++ t7 ++ "mydb" ++ t8 ++ "mydb" ++ t9 ++ "mydb" ++ t10 ++ "mydb" ++ t11 ++ "3" ++ t12 ++ "mydb" ++ t13 ++ "mydb" ++ t14, ?_⟩
    simp only [renderTemplate, er, e1, e2, e3, String.append_assoc]
  · have e4 : t11 = "\n  " ++ "replicas: " := by decide
    have e5 : ("replicas: 3" : String) = "replicas: " ++ "3" := by decide
    refine ⟨t0 ++ "mydb" ++ t1 ++ "mydb" ++ t2 ++ "mydb" ++ t3 ++ "mydb" ++ t4 ++ "mydb" ++ t5 ++ "mydb" ++ t6 ++ "mydb" ++ t7 ++ "mydb" ++ t8 ++ "mydb" ++ t9 ++ "mydb" ++ t10 ++ "mydb" ++ "\n  ", t12 ++ "mydb" ++ t13 ++ "mydb" ++ t14, ?_⟩
    simp only [renderTemplate, er, e4, e5, String.append_assoc]

end Cockroach
